import Mathlib

/-!
Verification development for the iTrade product-categorization prototype.

The program has two source files:
* `app.py` — the Streamlit application: LLM attribute extraction
  (`extract_attributes`), fuzzy brand normalization (`thefuzz.process.extractOne`
  with an 80-point threshold), WordNet lemmatization of the product type, and an
  exact-match Cypher lookup (`find_match_in_neo4j`) against a Neo4j store.
* `seed_database.py` — wipes the store and seeds it with four canonical
  products (`seed_data`, `PRODUCTS_TO_LOAD`).

The shallow embedding below models JSON values, the Neo4j graph reachable by the
program's queries, the fuzzy-match and lemmatization library calls as used by
the program, and the Streamlit button handler as a pure pipeline function.
-/

/-- Decimal number `mant * 10 ^ (- exp)`.  Every numeric literal in the program
is a decimal (integers such as 8, floats such as 4.5), and Cypher's `=` compares
integers and floats numerically, so decimals with an exact equality test model
all the numbers the program handles. -/
structure Dec where
  mant : Int
  exp : Nat
deriving DecidableEq

/-- Ten to the power `n`, as an integer. -/
def pow10 : Nat → Int
  | 0 => 1
  | n + 1 => 10 * pow10 n

/-- Numeric equality of two decimals: cross-multiplied mantissa equality
(so `8 = 8.0` and `4.5 = 4.50` hold, as in Cypher and Python). -/
def Dec.eqb (a b : Dec) : Bool :=
  a.mant * pow10 b.exp == b.mant * pow10 a.exp

/-- JSON values as produced by `json.loads` in `extract_attributes` (app.py line 65)
and stored as Neo4j node properties. -/
inductive Json where
  | null : Json
  | bool : Bool → Json
  | num : Dec → Json
  | str : String → Json
  | arr : List Json → Json
  | obj : List (String × Json) → Json

/-- Python `d.get(k, dflt)` on a JSON object: the value of the first field named
`k`, or the default.  JSON objects are Python dicts, so keys are unique. -/
def jsonGetD (j : Json) (k : String) (dflt : Json) : Json :=
  match j with
  | Json.obj fields =>
      match fields.find? (fun kv => kv.1 == k) with
      | some kv => kv.2
      | none => dflt
  | _ => dflt

/-- Python `d.get(k)`: default `None` (app.py lines 318-319 pass
`extracted_attrs.get('pack_quantity')` with no default). -/
def jsonGet (j : Json) (k : String) : Json :=
  jsonGetD j k Json.null

/-- Python truthiness of the JSON value bound to `extracted_attrs`
(app.py line 303: `if extracted_attrs and ...`). -/
def truthy : Json → Bool
  | Json.null => false
  | Json.bool b => b
  | Json.num q => !(q.eqb { mant := 0, exp := 0 })
  | Json.str s => !(s == "")
  | Json.arr l => !l.isEmpty
  | Json.obj l => !l.isEmpty

/-- Python `"error" in extracted_attrs` (app.py line 303): key membership on a
dict.  The extraction call uses `response_format={"type":"json_object"}`, so the
parsed content is always an object; non-objects report `false` here. -/
def hasKey (j : Json) (k : String) : Bool :=
  match j with
  | Json.obj fields => fields.any (fun kv => kv.1 == k)
  | _ => false

/-- Embedding of `extract_attributes` (app.py lines 39-67).  The external call
`openai.chat.completions.create` followed by `json.loads` is modelled as an
`Except`: `.ok j` is a completed call whose content parsed to the JSON value
`j`; `.error e` is any raised exception (API failure, timeout, or `json.loads`
failing on malformed content), `e` being `str(e)`.  The function returns the
parsed JSON unchanged — it performs no schema validation — and on exception
returns the in-band dict `{"error": str(e)}`. -/
def extract_attributes (response : Except String Json) : Json :=
  match response with
  | Except.ok content => content
  | Except.error e => Json.obj [("error", Json.str e)]

/-- One step of the best-candidate fold inside `thefuzz.process.extractOne`:
keep the current best, replacing it only on a strictly better score (ties keep
the earlier choice, matching the library's first-best behaviour). -/
def bestChoice (sc : String → String → Nat) (q : String)
    (acc : Option (String × Nat)) (c : String) : Option (String × Nat) :=
  match acc with
  | none => some (c, sc q c)
  | some (b, s) => if s < sc q c then some (c, sc q c) else some (b, s)

/-- Embedding of `thefuzz.process.extractOne(query, choices)` (app.py line 304).
The similarity scorer (the library's `WRatio`, a ratio in [0,100]) is an
external library function and is passed in as the parameter `sc`, per the
pluggable string-similarity interface of the design.  A `none` query models a
Python `None` query, for which the library returns `None`; an empty choice list
also yields `None`.  Otherwise the result is the best-scoring `(choice, score)`
pair, earliest choice winning ties. -/
def extractOne (sc : String → String → Nat) (query : Option String)
    (choices : List String) : Option (String × Nat) :=
  match query with
  | none => none
  | some q => choices.foldl (bestChoice sc q) none

/-- The Python value `extracted_attrs.get('brand', '')` as passed to
`extractOne`: a string is scored; `None` (a JSON null brand) is the library's
no-result sentinel. -/
def toQuery : Json → Option String
  | Json.str s => some s
  | _ => none

/-- The brand-confidence step of the button handler (app.py lines 304-309):
`brand_match = process.extractOne(...)`; `if not brand_match or
brand_match[1] < 80` the brand is not confident (`none`), otherwise the
standardized brand `brand_match[0]` is accepted. -/
def brandStep (sc : String → String → Nat) (knownBrands : List String)
    (brandValue : Json) : Option String :=
  match extractOne sc (toQuery brandValue) knownBrands with
  | none => none
  | some bm => if bm.2 < 80 then none else some bm.1

/-- WordNet data used by the NLTK `WordNetLemmatizer` as called in app.py line
313 (`lemmatizer.lemmatize(product_type_from_ai)`, part-of-speech defaulting
to noun): the set of noun lemma names known to the corpus and the noun
exception list.  The corpus is external data; concrete theorems instantiate it
with the fragment relevant to the test vocabulary. -/
structure WordNet where
  nouns : List String
  exc : List (String × List String)

/-- The noun entries of NLTK's `MORPHOLOGICAL_SUBSTITUTIONS`, in source order:
suffix rewrite rules tried by `morphy`. -/
def nounSubstitutions : List (String × String) :=
  [("s", ""), ("ses", "s"), ("ves", "f"), ("xes", "x"), ("zes", "z"),
   ("ches", "ch"), ("shes", "sh"), ("men", "man"), ("ies", "y")]

/-- Python `form.endswith(old)`, character-wise. -/
def strEndsWith (s suffix : String) : Bool :=
  suffix.data.isSuffixOf s.data

/-- Python `form[:-n]`: drop the last `n` characters. -/
def strDropRight (s : String) (n : Nat) : String :=
  String.mk (s.data.take (s.data.length - n))

/-- The `apply_rules` closure of NLTK's `_morphy`: for each form, every
substitution whose suffix matches, applied in rule order. -/
def applyRules (forms : List String) : List String :=
  forms.flatMap (fun f =>
    nounSubstitutions.filterMap (fun r =>
      if strEndsWith f r.1 then some (strDropRight f r.1.length ++ r.2) else none))

/-- First-occurrence deduplication (the `seen` set of NLTK's `filter_forms`). -/
def dedupSeen (seen : List String) : List String → List String
  | [] => []
  | f :: rest =>
      if f ∈ seen then dedupSeen seen rest else f :: dedupSeen (f :: seen) rest

/-- The `filter_forms` closure of NLTK's `_morphy`: keep the forms present in
the noun lemma index, first occurrence only, order preserved. -/
def filterForms (wn : WordNet) (forms : List String) : List String :=
  dedupSeen [] (forms.filter (fun f => decide (f ∈ wn.nouns)))

/-- Lookup in the noun exception map. -/
def lookupExc (wn : WordNet) (form : String) : Option (List String) :=
  (wn.exc.find? (fun kv => kv.1 == form)).map (fun kv => kv.2)

/-- The `while forms:` loop of NLTK's `_morphy`, with explicit fuel.  Every
substitution except `men -> man` strictly shortens a form, and a form produced
by `men -> man` matches no substitution suffix, so the loop always terminates
within `length + 2` rounds; callers pass that bound. -/
def morphyLoop (wn : WordNet) : Nat → List String → List String
  | 0, _ => []
  | _, [] => []
  | fuel + 1, forms =>
      let forms2 := applyRules forms
      let results := filterForms wn forms2
      if results.isEmpty then morphyLoop wn fuel forms2 else results

/-- NLTK `wordnet._morphy(form, pos='n')`: exception list first, then the
original form plus one round of rules, then repeated rule application. -/
def morphy (wn : WordNet) (form : String) : List String :=
  match lookupExc wn form with
  | some extra => filterForms wn (form :: extra)
  | none =>
      let forms := applyRules [form]
      let results := filterForms wn (form :: forms)
      if results.isEmpty then morphyLoop wn (form.length + 2) forms else results

/-- Python `min(lemmas, key=len)`: first element of minimal length. -/
def minByLen (l : List String) : Option String :=
  l.foldl (fun acc s =>
    match acc with
    | none => some s
    | some t => if s.length < t.length then some s else some t) none

/-- NLTK `WordNetLemmatizer.lemmatize(word)` (noun part of speech): the
shortest lemma returned by `morphy`, or the word itself when `morphy` finds
none. -/
def lemmatize (wn : WordNet) (word : String) : String :=
  match minByLen (morphy wn word) with
  | some m => m
  | none => word

/-- The product-type normalization of the button handler (app.py lines
312-313): `lemmatizer.lemmatize(product_type_from_ai) if product_type_from_ai
else ''`.  A JSON null (Python `None`) and the empty string are falsy and pass
through as the empty string; a non-empty string is lemmatized.  The extraction
schema makes the field a string or null, so no other value reaches this code. -/
def normalizeProductType (wn : WordNet) (v : Json) : String :=
  match v with
  | Json.str s => if s == "" then "" else lemmatize wn s
  | _ => ""

/-- A Product node of the graph as read by the program's queries: its
`canonical_id` key property and the `pack_quantity`, `pack_size` and `uom`
properties.  (`ON CREATE SET p += $product` in seed_database.py also copies
`standard_description`, `brand` and `product_type` onto the node, but no query
of the program reads those node properties, so they are not modelled.) -/
structure PRecord where
  canonical_id : Int
  pack_quantity : Json
  pack_size : Json
  uom : Json

/-- The graph store reachable by the program's queries: Product nodes keyed by
`canonical_id`, Brand and ProductType nodes keyed by `name`, and the two
relationship types, each relationship recorded as (product id, target node
name).  Brand and ProductType nodes are only ever created by `MERGE` on
`name` (seed_database.py lines 60, 63), so names identify them uniquely. -/
structure GraphState where
  products : List PRecord
  brands : List String
  ptypes : List String
  hasBrand : List (Int × String)
  isType : List (Int × String)

/-- The store with no nodes and no relationships. -/
def emptyStore : GraphState :=
  { products := [], brands := [], ptypes := [], hasBrand := [], isType := [] }

/-- The `query_params` dict built in app.py lines 315-320: `brand` is the
standardized brand (a string), `product_type` the lemmatized type (a string),
and the two pack fields are whatever `extracted_attrs.get` returned (possibly
null). -/
structure QueryParams where
  brand : String
  product_type : String
  pack_quantity : Json
  pack_size : Json

/-- Cypher `=` as used in `WHERE p.pack_quantity = $pack_quantity AND
p.pack_size = $pack_size` (app.py line 75), restricted to the rows the `WHERE`
keeps: a comparison involving null is not true, values of different kinds are
not equal, and numbers compare numerically. -/
def cypherEq : Json → Json → Bool
  | Json.num a, Json.num b => a.eqb b
  | Json.str a, Json.str b => a == b
  | Json.bool a, Json.bool b => a == b
  | _, _ => false

/-- The row predicate of the Cypher query in `find_match_in_neo4j` (app.py
lines 72-77): the product has a HAS_BRAND relationship to the Brand node named
`$brand`, an IS_TYPE relationship to the ProductType node named
`$product_type` (string equality on names, hence exact and case-sensitive),
and its `pack_quantity` and `pack_size` properties equal the parameters.  The
`uom` property does not occur in the query. -/
def matchPred (g : GraphState) (params : QueryParams) (p : PRecord) : Bool :=
  decide ((p.canonical_id, params.brand) ∈ g.hasBrand) &&
  decide ((p.canonical_id, params.product_type) ∈ g.isType) &&
  cypherEq p.pack_quantity params.pack_quantity &&
  cypherEq p.pack_size params.pack_size

/-- The record list returned by the query (`records = result.data()`, app.py
line 79): one row per product satisfying the predicate. -/
def candidates (g : GraphState) (params : QueryParams) : List PRecord :=
  g.products.filter (fun p => matchPred g params p)

/-- What `find_match_in_neo4j` produces: its Python return value (`records[0]['p']`
or `None`) and whether the `st.warning("Ambiguous Match: ...")` call on app.py
line 83 was executed. -/
structure MatchResult where
  value : Option PRecord
  ambiguousWarning : Bool

/-- Embedding of `find_match_in_neo4j` (app.py lines 69-86): one record is
returned as the match; more than one record emits the ambiguity warning and
returns `None`; zero records return `None` with no warning. -/
def find_match_in_neo4j (g : GraphState) (params : QueryParams) : MatchResult :=
  let records := candidates g params
  if records.length == 1 then { value := records.head?, ambiguousWarning := false }
  else if 1 < records.length then { value := none, ambiguousWarning := true }
  else { value := none, ambiguousWarning := false }

/-- One entry of `PRODUCTS_TO_LOAD` (seed_database.py lines 9-46). -/
structure SeedProduct where
  canonical_id : Int
  standard_description : String
  brand : String
  product_type : String
  pack_quantity : Int
  pack_size : Dec
  uom : String

/-- The canonical product data of seed_database.py lines 9-46.  Decimal pack
sizes are written as (mantissa, exponent) pairs: 1.0, 6.0, 4.5, 6.0. -/
def PRODUCTS_TO_LOAD : List SeedProduct :=
  [{ canonical_id := 7669, standard_description := "STRAWBERRY DRISCOLL 8/1LB",
     brand := "Driscoll\x27s", product_type := "Strawberry",
     pack_quantity := 8, pack_size := { mant := 10, exp := 1 }, uom := "LB" },
   { canonical_id := 7670, standard_description := "BLUEBERRY DRISCOLL 6/6OZ",
     brand := "Driscoll\x27s", product_type := "Blueberry",
     pack_quantity := 6, pack_size := { mant := 60, exp := 1 }, uom := "OZ" },
   { canonical_id := 7671, standard_description := "RASPBERRY DRISCOLL 12/4.5OZ",
     brand := "Driscoll\x27s", product_type := "Raspberry",
     pack_quantity := 12, pack_size := { mant := 45, exp := 1 }, uom := "OZ" },
   { canonical_id := 7672, standard_description := "BLACKBERRY DRISCOLL 12/6OZ",
     brand := "Driscoll\x27s", product_type := "Blackberry",
     pack_quantity := 12, pack_size := { mant := 60, exp := 1 }, uom := "OZ" }]

/-- The Product node created for a seed entry (`ON CREATE SET p += $product`,
seed_database.py line 58), restricted to the properties the program's queries
read. -/
def toPRecord (prod : SeedProduct) : PRecord :=
  { canonical_id := prod.canonical_id,
    pack_quantity := Json.num { mant := prod.pack_quantity, exp := 0 },
    pack_size := Json.num prod.pack_size,
    uom := Json.str prod.uom }

/-- The per-product transaction of `seed_data` (seed_database.py lines 56-65):
`MERGE` the Product node on `canonical_id` (properties set only on create),
`MERGE` the Brand and ProductType nodes on `name`, and `MERGE` the two
relationships. -/
def insertSeedProduct (g : GraphState) (prod : SeedProduct) : GraphState :=
  let g1 := if g.products.any (fun p => p.canonical_id == prod.canonical_id) then g
            else { g with products := g.products ++ [toPRecord prod] }
  let g2 := if prod.brand ∈ g1.brands then g1
            else { g1 with brands := g1.brands ++ [prod.brand] }
  let g3 := if (prod.canonical_id, prod.brand) ∈ g2.hasBrand then g2
            else { g2 with hasBrand := g2.hasBrand ++ [(prod.canonical_id, prod.brand)] }
  let g4 := if prod.product_type ∈ g3.ptypes then g3
            else { g3 with ptypes := g3.ptypes ++ [prod.product_type] }
  if (prod.canonical_id, prod.product_type) ∈ g4.isType then g4
  else { g4 with isType := g4.isType ++ [(prod.canonical_id, prod.product_type)] }

/-- The first transaction of `seed_data` (seed_database.py line 51):
`MATCH (n) DETACH DELETE n` removes every node and, with it, every
relationship, whatever the prior state was. -/
def wipe (_prior : GraphState) : GraphState :=
  emptyStore

/-- Embedding of `seed_data` (seed_database.py lines 48-66): wipe the store,
then merge each product in list order. -/
def seed_data (prior : GraphState) (products : List SeedProduct) : GraphState :=
  products.foldl insertSeedProduct (wipe prior)

/-- The observable outcome of one run of the `Categorize Product` button
handler (app.py lines 293-330) for a non-empty description:
* `extractionFailed` — the guard on line 303 rejected the extracted
  attributes (falsy, or carrying the `"error"` key); neither the brand
  normalizer, nor the lemmatizer, nor the store query ran;
* `brandNotConfident` — the warning on line 306;
* `matched p` — the success branch on lines 327-328 with the matched product;
* `noExactMatch w` — the info message on line 330, `w` recording whether the
  ambiguity warning had been emitted inside `find_match_in_neo4j`. -/
inductive Outcome where
  | extractionFailed : Outcome
  | brandNotConfident : Outcome
  | matched : PRecord → Outcome
  | noExactMatch : Bool → Outcome

/-- Embedding of the button handler (app.py lines 297-330): extraction, the
guard `if extracted_attrs and "error" not in extracted_attrs`, the brand
step, the lemmatization of `product_type`, the query-parameter build, the
store query, and the final display branch.  The fuzzy scorer `sc`, the
WordNet data `wn`, the store `g` and `known_brands` are the run's fixed
collaborators. -/
def categorize (sc : String → String → Nat) (wn : WordNet) (g : GraphState)
    (knownBrands : List String) (response : Except String Json) : Outcome :=
  let extracted_attrs := extract_attributes response
  if truthy extracted_attrs && !(hasKey extracted_attrs "error") then
    match brandStep sc knownBrands (jsonGetD extracted_attrs "brand" (Json.str "")) with
    | none => Outcome.brandNotConfident
    | some standardized_brand =>
        let lemmatized_type :=
          normalizeProductType wn (jsonGetD extracted_attrs "product_type" (Json.str ""))
        let mr := find_match_in_neo4j g
          { brand := standardized_brand, product_type := lemmatized_type,
            pack_quantity := jsonGet extracted_attrs "pack_quantity",
            pack_size := jsonGet extracted_attrs "pack_size" }
        match mr.value with
        | some p => Outcome.matched p
        | none => Outcome.noExactMatch mr.ambiguousWarning
  else Outcome.extractionFailed
lemma bestChoice_foldl_spec (sc : String → String → Nat) (q : String) :
    ∀ (l : List String) (b0 : String) (s0 : Nat),
      ∃ b s, l.foldl (bestChoice sc q) (some (b0, s0)) = some (b, s) ∧
        ((b = b0 ∧ s = s0) ∨ (b ∈ l ∧ s = sc q b)) ∧ s0 ≤ s ∧ ∀ c ∈ l, sc q c ≤ s := by
  intro l
  induction l with
  | nil => intro b0 s0; exact ⟨b0, s0, rfl, Or.inl ⟨rfl, rfl⟩, le_refl _, by simp⟩
  | cons c rest ih =>
      intro b0 s0
      by_cases h : s0 < sc q c
      · obtain ⟨b, s, hfold, hsrc, hle, hall⟩ := ih c (sc q c)
        refine ⟨b, s, ?_, ?_, ?_, ?_⟩
        · simpa [List.foldl_cons, bestChoice, h] using hfold
        · rcases hsrc with ⟨hb, hs⟩ | ⟨hb, hs⟩
          · exact Or.inr ⟨by simp [hb], by rw [hb, hs]⟩
          · exact Or.inr ⟨by simp [hb], hs⟩
        · exact le_of_lt (lt_of_lt_of_le h hle)
        · intro c' hc'
          rcases List.mem_cons.mp hc' with hc' | hc'
          · rw [hc']; exact hle
          · exact hall c' hc'
      · obtain ⟨b, s, hfold, hsrc, hle, hall⟩ := ih b0 s0
        refine ⟨b, s, ?_, ?_, hle, ?_⟩
        · simpa [List.foldl_cons, bestChoice, h] using hfold
        · rcases hsrc with hsrc | ⟨hb, hs⟩
          · exact Or.inl hsrc
          · exact Or.inr ⟨by simp [hb], hs⟩
        · intro c' hc'
          rcases List.mem_cons.mp hc' with hc' | hc'
          · rw [hc']; exact le_trans (Nat.le_of_not_lt h) hle
          · exact hall c' hc'

lemma extractOne_best (sc : String → String → Nat) (q : String)
    (choices : List String) (b : String) (s : Nat)
    (h : extractOne sc (some q) choices = some (b, s)) :
    b ∈ choices ∧ s = sc q b ∧ ∀ c ∈ choices, sc q c ≤ s := by
  cases choices with
  | nil => simp [extractOne] at h
  | cons c rest =>
      obtain ⟨b', s', hfold, hsrc, hle, hall⟩ := bestChoice_foldl_spec sc q rest c (sc q c)
      have hfold' : extractOne sc (some q) (c :: rest) = some (b', s') := by
        simpa [extractOne, List.foldl_cons, bestChoice] using hfold
      rw [hfold'] at h
      simp only [Option.some.injEq, Prod.mk.injEq] at h
      obtain ⟨hb, hs⟩ := h
      subst hb; subst hs
      refine ⟨?_, ?_, ?_⟩
      · rcases hsrc with ⟨hb, _⟩ | ⟨hb, _⟩
        · simp [hb]
        · simp [hb]
      · rcases hsrc with ⟨hb, hs⟩ | ⟨_, hs⟩
        · rw [hb, hs]
        · exact hs
      · intro c' hc'
        rcases List.mem_cons.mp hc' with hc' | hc'
        · rw [hc']; exact hle
        · exact hall c' hc'

/-- WordNet noun-index fragment covering the product-type vocabulary of the
seed data: the berry nouns (all lowercase, as in the corpus index) and no
noun exceptions. -/
def wnFixture : WordNet :=
  { nouns := ["strawberry", "blueberry", "raspberry", "blackberry", "berry"], exc := [] }

/-- The test vocabulary of plural/singular English product-type nouns: the
seed data's product types, their plurals, and the same words lowercased. -/
def testVocab : List String :=
  ["Strawberry", "Strawberries", "strawberry", "strawberries",
   "Blueberry", "Blueberries", "blueberry", "blueberries",
   "Raspberry", "Raspberries", "raspberry", "raspberries",
   "Blackberry", "Blackberries", "blackberry", "blackberries",
   "berry", "berries"]

/-- A store product with pack_quantity 8 and pack_size 1.0, id 1. -/
def dupP1 : PRecord :=
  { canonical_id := 1, pack_quantity := Json.num { mant := 8, exp := 0 },
    pack_size := Json.num { mant := 10, exp := 1 }, uom := Json.str "LB" }

/-- A second product identical to `dupP1` on brand, type, pack_quantity and
pack_size, differing only in id and uom. -/
def dupP2 : PRecord :=
  { canonical_id := 2, pack_quantity := Json.num { mant := 8, exp := 0 },
    pack_size := Json.num { mant := 10, exp := 1 }, uom := Json.str "OZ" }

/-- A store holding two products that agree on brand, product type,
pack_quantity and pack_size — the duplicate-tuple situation the data model
allows. -/
def dupStore : GraphState :=
  { products := [dupP1, dupP2], brands := ["Driscolls"], ptypes := ["Strawberry"],
    hasBrand := [(1, "Driscolls"), (2, "Driscolls")],
    isType := [(1, "Strawberry"), (2, "Strawberry")] }

/-- Query parameters matching both products of `dupStore` (the parameter
pack_size 1 equals the stored 1.0 numerically). -/
def demoParams : QueryParams :=
  { brand := "Driscolls", product_type := "Strawberry",
    pack_quantity := Json.num { mant := 8, exp := 0 },
    pack_size := Json.num { mant := 1, exp := 0 } }

/-- A similarity scorer admissible for the pluggable string-similarity
interface (a value in [0,100] for every pair): full score on equal strings and
80 otherwise, used to exhibit the behaviour of the threshold test at the
boundary score 80. -/
def score80 (a b : String) : Nat :=
  if a == b then 100 else 80

/-- A single-product store whose only ProductType node is named
"Strawberry". -/
def singleStore : GraphState :=
  { products := [dupP1], brands := ["Driscolls"], ptypes := ["Strawberry"],
    hasBrand := [(1, "Driscolls")], isType := [(1, "Strawberry")] }

/-- C1: a product is a candidate of the match query iff it is in the store and
its HAS_BRAND relationship carries exactly the record's brand, its IS_TYPE
relationship carries exactly the record's product_type (string equality, hence
case-sensitive), and its pack_quantity and pack_size properties equal the
record's values; the product's uom plays no role in the predicate (replacing
it never changes the predicate's value). -/
theorem match_candidate_iff (g : GraphState) (params : QueryParams) (p : PRecord) :
    (p ∈ candidates g params ↔
      p ∈ g.products ∧
      (p.canonical_id, params.brand) ∈ g.hasBrand ∧
      (p.canonical_id, params.product_type) ∈ g.isType ∧
      cypherEq p.pack_quantity params.pack_quantity = true ∧
      cypherEq p.pack_size params.pack_size = true) ∧
    (∀ u, matchPred g params { p with uom := u } = matchPred g params p) := by
  constructor
  · simp [candidates, List.mem_filter, matchPred, Bool.and_eq_true, decide_eq_true_eq, and_assoc]
  · intro u; rfl

theorem match_candidate_iff_witness :
    matchPred dupStore demoParams { dupP1 with uom := Json.str "CS" } =
      matchPred dupStore demoParams dupP1 :=
  (match_candidate_iff dupStore demoParams dupP1).2 (Json.str "CS")

/-- C2 (amended): the outcome of `find_match_in_neo4j` is determined by the
candidate count — zero candidates return value `None` with no warning, one
candidate returns that candidate, two or more return value `None` with the
ambiguity warning emitted to the UI. -/
theorem match_outcome_trichotomy (g : GraphState) (params : QueryParams) :
    ((candidates g params).length = 0 →
      find_match_in_neo4j g params = { value := none, ambiguousWarning := false }) ∧
    (∀ p, candidates g params = [p] →
      find_match_in_neo4j g params = { value := some p, ambiguousWarning := false }) ∧
    (2 ≤ (candidates g params).length →
      find_match_in_neo4j g params = { value := none, ambiguousWarning := true }) := by
  refine ⟨?_, ?_, ?_⟩
  · intro h0
    simp [find_match_in_neo4j, h0]
  · intro p hp
    simp [find_match_in_neo4j, hp]
  · intro h2
    have hne : ((candidates g params).length == 1) = false := by
      simp only [beq_eq_false_iff_ne]
      omega
    have hlt : 1 < (candidates g params).length := by omega
    simp [find_match_in_neo4j, hne, hlt]

theorem match_outcome_trichotomy_witness :
    find_match_in_neo4j dupStore demoParams = { value := none, ambiguousWarning := true } :=
  (match_outcome_trichotomy dupStore demoParams).2.2 (by decide)

/-- C2 counterexample: on a store holding two products with identical brand,
type, pack_quantity and pack_size (an Ambiguous situation) the Python return
value of `find_match_in_neo4j` is `None`, exactly the return value of the
NoMatch situation on the empty store — the returned value does not distinguish
the two outcomes. -/
theorem ambiguous_nomatch_same_return :
    (candidates dupStore demoParams).length = 2 ∧
    (candidates emptyStore demoParams).length = 0 ∧
    (find_match_in_neo4j dupStore demoParams).value = none ∧
    (find_match_in_neo4j dupStore demoParams).value =
      (find_match_in_neo4j emptyStore demoParams).value :=
  ⟨rfl, rfl, rfl, rfl⟩

/-- C3 (amended): `extractOne` returns the best-scoring known brand (earliest
wins ties), and the brand step accepts it exactly when its score is at least
80 — the code's test on app.py line 305 rejects only scores strictly below
80, so a best score of exactly 80 is accepted. -/
theorem brand_threshold_geq_80 (sc : String → String → Nat) (q : String)
    (brands : List String) (b : String) (s : Nat)
    (h : extractOne sc (some q) brands = some (b, s)) :
    (b ∈ brands ∧ s = sc q b ∧ ∀ c ∈ brands, sc q c ≤ s) ∧
    brandStep sc brands (Json.str q) = (if s < 80 then none else some b) := by
  refine ⟨extractOne_best sc q brands b s h, ?_⟩
  simp [brandStep, toQuery, h]

theorem brand_threshold_geq_80_witness :
    brandStep score80 ["Driscolls"] (Json.str "Driscolls") =
      (if (100 : Nat) < 80 then none else some "Driscolls") :=
  (brand_threshold_geq_80 score80 "Driscolls" ["Driscolls"] "Driscolls" 100 rfl).2

/-- C3 counterexample: with an admissible scorer giving the single known brand
a similarity of exactly 80, every candidate scores at most 80, yet the brand
step accepts the candidate instead of failing — refuting the strict
greater-than-80 acceptance rule. -/
theorem brand_threshold_80_accepted :
    extractOne score80 (some "Driscol") ["Driscolls"] = some ("Driscolls", 80) ∧
    score80 "Driscol" "Driscolls" ≤ 80 ∧
    brandStep score80 ["Driscolls"] (Json.str "Driscol") = some "Driscolls" :=
  ⟨rfl, by decide, rfl⟩

/-- C4 (amended): `extract_attributes` performs no schema validation — a
completed call whose content parsed to any JSON value returns that value
unchanged, whatever its keys, and only a raised exception (call failure or
malformed JSON) produces the in-band error dict. -/
theorem extract_no_schema_validation (j : Json) (e : String) :
    extract_attributes (Except.ok j) = j ∧
    extract_attributes (Except.error e) = Json.obj [("error", Json.str e)] :=
  ⟨rfl, rfl⟩

/-- C4 counterexample: a valid-JSON response whose object has none of the
schema keys is returned as the attribute record, carries no error marker, and
the pipeline proceeds past extraction with it (here to the brand step) —
refuting the claim that such a response yields an ExtractionError. -/
theorem extract_wrong_keys_not_error :
    extract_attributes (Except.ok (Json.obj [("foo", Json.num { mant := 1, exp := 0 })])) =
      Json.obj [("foo", Json.num { mant := 1, exp := 0 })] ∧
    hasKey (Json.obj [("foo", Json.num { mant := 1, exp := 0 })]) "error" = false ∧
    truthy (Json.obj [("foo", Json.num { mant := 1, exp := 0 })]) = true ∧
    categorize (fun _ _ => 0) wnFixture emptyStore []
      (Except.ok (Json.obj [("foo", Json.num { mant := 1, exp := 0 })])) =
      Outcome.brandNotConfident :=
  ⟨rfl, rfl, rfl, rfl⟩

/-- C5: when the extraction step fails — the completion call raises or its
content is malformed JSON — the run ends at extraction: the handler's guard
rejects the in-band error dict and the outcome is `extractionFailed`,
independently of the scorer, the WordNet data, the store and the known brands,
so neither the normalizer nor the matcher is invoked. -/
theorem extraction_error_stops_pipeline (sc : String → String → Nat) (wn : WordNet)
    (g : GraphState) (kb : List String) (e : String) :
    categorize sc wn g kb (Except.error e) = Outcome.extractionFailed := rfl

/-- C9: `seed_data` wipes the store before merging: its result is independent
of the prior state (it always equals seeding the empty store), and seeding
the repository's product list leaves exactly the four seeded products, the
one brand and the four product types, whatever data existed before. -/
theorem seed_wipes_prior_state (prior : GraphState) (products : List SeedProduct) :
    seed_data prior products = seed_data emptyStore products ∧
    (seed_data emptyStore PRODUCTS_TO_LOAD).products.map (fun p => p.canonical_id) =
      [7669, 7670, 7671, 7672] ∧
    (seed_data emptyStore PRODUCTS_TO_LOAD).brands = ["Driscoll\x27s"] ∧
    (seed_data emptyStore PRODUCTS_TO_LOAD).ptypes =
      ["Strawberry", "Blueberry", "Raspberry", "Blackberry"] :=
  ⟨rfl, rfl, rfl, rfl⟩

/-- C6: when the extracted brand field is null or the empty string, the brand
step is not confident — a null brand is the fuzzy matcher's no-result
sentinel, and an empty brand scores 0 against every known brand (the WRatio
scorer maps an empty processed query to 0), which is below the threshold — so
the run ends with the warning outcome, independently of the WordNet data and
the store: neither the product-type step nor the matcher runs. -/
theorem brand_null_or_empty_not_confident (sc : String → String → Nat) (wn : WordNet)
    (g : GraphState) (kb : List String) (fields : List (String × Json))
    (hsc : ∀ c ∈ kb, sc "" c = 0)
    (htr : truthy (Json.obj fields) = true)
    (herr : hasKey (Json.obj fields) "error" = false)
    (hbrand : jsonGetD (Json.obj fields) "brand" (Json.str "") = Json.null ∨
              jsonGetD (Json.obj fields) "brand" (Json.str "") = Json.str "") :
    categorize sc wn g kb (Except.ok (Json.obj fields)) = Outcome.brandNotConfident := by
  have hguard : (truthy (Json.obj fields) && !(hasKey (Json.obj fields) "error")) = true := by
    rw [htr, herr]; rfl
  have hbs : brandStep sc kb (jsonGetD (Json.obj fields) "brand" (Json.str "")) = none := by
    rcases hbrand with hb | hb
    · rw [hb]; rfl
    · rw [hb]
      cases hres : extractOne sc (some "") kb with
      | none => simp [brandStep, toQuery, hres]
      | some bs =>
          obtain ⟨hmem, hs, _⟩ := extractOne_best sc "" kb bs.1 bs.2 (by rw [hres])
          have hz : bs.2 = 0 := by rw [hs, hsc bs.1 hmem]
          simp [brandStep, toQuery, hres, hz]
  simp [categorize, extract_attributes, hguard, hbs]

theorem brand_null_or_empty_not_confident_witness :
    categorize (fun _ _ => 0) wnFixture emptyStore ["Driscolls"]
      (Except.ok (Json.obj [("brand", Json.null), ("product_type", Json.str "Strawberry")])) =
      Outcome.brandNotConfident :=
  brand_null_or_empty_not_confident _ _ _ _ _ (fun _ _ => rfl) rfl rfl (Or.inl rfl)

/-- C7: a null or empty product_type is passed through as the empty string by
the normalization on app.py line 313, and when no ProductType node of the
store is named the empty string (relationships always target existing nodes),
the match query has zero candidates, so it returns `None` without the
ambiguity warning — the NoMatch outcome. -/
theorem empty_product_type_no_match (wn : WordNet) (v : Json) (g : GraphState)
    (brand : String) (pq ps : Json)
    (hv : v = Json.null ∨ v = Json.str "")
    (hnode : ∀ n ∈ g.ptypes, n ≠ "")
    (hwf : ∀ e ∈ g.isType, e.2 ∈ g.ptypes) :
    normalizeProductType wn v = "" ∧
    find_match_in_neo4j g
        { brand := brand, product_type := "", pack_quantity := pq, pack_size := ps } =
      { value := none, ambiguousWarning := false } := by
  constructor
  · rcases hv with hv | hv <;> rw [hv] <;> rfl
  · have hcand : candidates g
        { brand := brand, product_type := "", pack_quantity := pq, pack_size := ps } = [] := by
      rw [candidates, List.filter_eq_nil_iff]
      intro p hp hmp
      simp only [matchPred, Bool.and_eq_true, decide_eq_true_eq] at hmp
      exact hnode "" (hwf _ hmp.1.1.2) rfl
    simp [find_match_in_neo4j, hcand]

theorem empty_product_type_no_match_witness :
    normalizeProductType wnFixture Json.null = "" ∧
    find_match_in_neo4j singleStore
        { brand := "Driscolls", product_type := "",
          pack_quantity := Json.num { mant := 8, exp := 0 },
          pack_size := Json.num { mant := 1, exp := 0 } } =
      { value := none, ambiguousWarning := false } :=
  empty_product_type_no_match wnFixture Json.null singleStore "Driscolls"
    (Json.num { mant := 8, exp := 0 }) (Json.num { mant := 1, exp := 0 })
    (Or.inl rfl) (by decide) (by decide)

/-- C8: on the test vocabulary of plural/singular product-type nouns, the
lemmatizer is idempotent — lemmatizing a lemmatized word changes nothing. -/
theorem lemmatize_idempotent_on_vocab :
    ∀ x ∈ testVocab, lemmatize wnFixture (lemmatize wnFixture x) = lemmatize wnFixture x := by
  decide

theorem lemmatize_idempotent_on_vocab_witness :
    lemmatize wnFixture (lemmatize wnFixture "Strawberries") = lemmatize wnFixture "Strawberries" :=
  lemmatize_idempotent_on_vocab "Strawberries" (by decide)

/-- C10: extraction failure is signalled in-band by the `"error"` key, and the
handler's guard classifies success solely by that key's absence — so a
completed extraction whose JSON object happens to contain an `"error"` key is
treated as a failure and the normalizer and matcher are skipped. -/
theorem inband_error_key_treated_as_failure :
    (∀ e : String, hasKey (extract_attributes (Except.error e)) "error" = true) ∧
    (∀ (sc : String → String → Nat) (wn : WordNet) (g : GraphState)
       (kb : List String) (j : Json),
      hasKey j "error" = true →
      categorize sc wn g kb (Except.ok j) = Outcome.extractionFailed) := by
  constructor
  · intro e; rfl
  · intro sc wn g kb j hj
    simp [categorize, extract_attributes, hj]

theorem inband_error_key_treated_as_failure_witness :
    categorize (fun _ _ => 0) wnFixture emptyStore ["Driscolls"]
      (Except.ok (Json.obj [("error", Json.str "boom"), ("brand", Json.str "Dole")])) =
      Outcome.extractionFailed :=
  inband_error_key_treated_as_failure.2 _ _ _ _ _ rfl
